/-
Verification of the resilient analysis-orchestration core of the
`polymarket_agents` repository, as a shallow embedding in Lean 4.

The embedding follows the Python sources:
  * `polymarket_agents/common/errors.py`        — exception taxonomy
  * `polymarket_agents/common/retry.py`         — `RetryConfig`, `execute_with_retry`,
                                                  `execute_with_retry_sync`
  * `polymarket_agents/common/mcp_base.py`      — `MCPServerConfig`, `MCPServerManager.validate_config`
  * `polymarket_agents/application/enhanced_executor.py`
        — `EnhancedExecutor.enhanced_market_analysis`, `_execute_with_retry`,
          `_parse_trading_recommendation`, `get_trace_url`
  * `polymarket_agents/application/trade.py`    — the confidence gate in `Trader.one_best_trade`

Python exceptions are modelled by an explicit error value type; a raising
computation returns `Except PyErr α`.  Python floats are modelled by `Rat`
(none of the verified properties is sensitive to binary rounding).  Loops are
modelled by fuel-indexed structural recursion whose fuel mirrors the loop
bound, and each retry loop additionally returns the number of attempts it
performed (the loop's trip count).
-/
import Mathlib

/-- Python whitespace characters matched by `\s` (and stripped by `str.strip`)
for ASCII input: space, tab, newline, carriage return, vertical tab, form feed. -/
def isPySpace (c : Char) : Bool :=
  c = ' ' || c = '\t' || c = '\n' || c = '\r' || c = Char.ofNat 11 || c = Char.ofNat 12

/-- ASCII decimal digit, as matched by `\d` on the inputs in scope. -/
def isPyDigit (c : Char) : Bool :=
  '0' ≤ c && c ≤ '9'

/-- Python classes of the repository's own exception hierarchy
(`common/errors.py`).  Every such exception object carries a `retryable`
attribute set by its constructor. -/
inductive PMClass where
  | base           -- PolymarketAgentError
  | configuration  -- ConfigurationError
  | retryableErr   -- RetryableError
  | nonRetryableErr -- NonRetryableError
  | mcp            -- MCPError
  | trading        -- TradingError
deriving DecidableEq, Repr

/-- Builtin / third-party exception classes that reach the retry code. -/
inductive BuiltinClass where
  | exc            -- bare Exception
  | asyncioTimeout -- asyncio.TimeoutError
  | connErr        -- ConnectionError
  | timeoutErr     -- TimeoutError
  | runtimeErr     -- RuntimeError
deriving DecidableEq, Repr

/-- A Python exception value as seen by the orchestration core: either an
instance of the repository's `PolymarketAgentError` hierarchy (which always
has a `retryable` attribute) or a builtin exception (which has none). -/
inductive PyErr where
  | polymarket (cls : PMClass) (msg : String) (retryable : Bool)
  | builtin (cls : BuiltinClass) (msg : String)
deriving DecidableEq, Repr

/-- `str(error)`.  `PolymarketAgentError.__str__` returns the message (the
details dict is empty for every error the modelled code constructs); builtin
exceptions stringify to their message. -/
def pyStr : PyErr → String
  | .polymarket _ m _ => m
  | .builtin _ m => m

/-- `RetryConfig` from `common/retry.py`.  `retryable_exceptions` defaults to
`[RetryableError, asyncio.TimeoutError, ConnectionError, TimeoutError]`; since
every `PolymarketAgentError` instance is classified through its `retryable`
attribute before the isinstance check, only the builtin entries of that list
are ever consulted, and the field keeps just those. -/
structure RetryConfig where
  max_retries : Nat := 3
  base_delay : Rat := 1
  max_delay : Rat := 60
  backoff_multiplier : Rat := 2
  timeout : Option Rat := none
  retryable_classes : List BuiltinClass := [.asyncioTimeout, .connErr, .timeoutErr]
deriving Repr

/-- `RetryConfig.is_retryable`: an error with a `retryable` attribute (every
`PolymarketAgentError`) is classified by that flag; otherwise membership in
the configured exception-class list decides. -/
def RetryConfig.is_retryable (cfg : RetryConfig) : PyErr → Bool
  | .polymarket _ _ r => r
  | .builtin c _ => cfg.retryable_classes.contains c

/-- `RetryConfig.get_delay`: `delay = base_delay * backoff_multiplier ** retry_count;
jitter = random.uniform(0, 0.1) * delay; return min(delay + jitter, max_delay)`.
The realization of `random.uniform(0, 0.1)` is the parameter `u ∈ [0, 1/10]`. -/
def RetryConfig.get_delay (cfg : RetryConfig) (retry_count : Nat) (u : Rat) : Rat :=
  let delay := cfg.base_delay * cfg.backoff_multiplier ^ retry_count
  let jitter := u * delay
  min (delay + jitter) cfg.max_delay

/-- One run of the wrapped operation per attempt index: `f k` is the outcome
of the `k`-th call of `func` (`k = 0` is the initial attempt). -/
def AttemptFun (α : Type) := Nat → Except PyErr α

/-- Loop body of `execute_with_retry` (`common/retry.py`), for a synchronous
`func` (so the `asyncio.iscoroutinefunction` branch is not taken and the
per-attempt timeout does not apply).  `fuel` is the number of loop iterations
still available (`range(max_retries + 1)` from the current `attempt`); the
second component counts the attempts performed.  The `fuel = 0` fallthrough
mirrors the dead `raise RuntimeError` after the loop. -/
def executeWithRetryGo {α : Type} (cfg : RetryConfig) (f : AttemptFun α) :
    Nat → Nat → Except PyErr α × Nat
  | _, 0 => (.error (.builtin .runtimeErr "Unknown error occurred during retry execution"), 0)
  | attempt, fuel + 1 =>
    match f attempt with
    | .ok a => (.ok a, 1)
    | .error e =>
      if cfg.max_retries ≤ attempt then (.error e, 1)
      else if ¬ cfg.is_retryable e then (.error e, 1)
      else
        let r := executeWithRetryGo cfg f (attempt + 1) fuel
        (r.1, r.2 + 1)

/-- `execute_with_retry` from `common/retry.py` (async executor, applied to a
synchronous operation), instrumented with the attempt count. -/
def execute_with_retry {α : Type} (cfg : RetryConfig) (f : AttemptFun α) :
    Except PyErr α × Nat :=
  executeWithRetryGo cfg f 0 (cfg.max_retries + 1)

/-- Loop body of `execute_with_retry_sync` (`common/retry.py`).  The Python
source is a separate function whose loop differs from the async one only in
how it suspends (`time.sleep` instead of `await asyncio.sleep`) and in not
offering the coroutine/timeout branch; its control flow is transcribed
independently here. -/
def executeWithRetrySyncGo {α : Type} (cfg : RetryConfig) (f : AttemptFun α) :
    Nat → Nat → Except PyErr α × Nat
  | _, 0 => (.error (.builtin .runtimeErr "Unknown error occurred during retry execution"), 0)
  | attempt, fuel + 1 =>
    match f attempt with
    | .ok a => (.ok a, 1)
    | .error e =>
      if cfg.max_retries ≤ attempt then (.error e, 1)
      else if ¬ cfg.is_retryable e then (.error e, 1)
      else
        let r := executeWithRetrySyncGo cfg f (attempt + 1) fuel
        (r.1, r.2 + 1)

/-- `execute_with_retry_sync` from `common/retry.py`, instrumented with the
attempt count. -/
def execute_with_retry_sync {α : Type} (cfg : RetryConfig) (f : AttemptFun α) :
    Except PyErr α × Nat :=
  executeWithRetrySyncGo cfg f 0 (cfg.max_retries + 1)

/-- The wrapper exception raised by `EnhancedExecutor._execute_with_retry`
when its attempts are exhausted:
`Exception(f"Operation failed after {max_retries} retries: {str(last_error)}")`
(`str(None) = "None"` when the loop never ran). -/
def enhancedWrapErr (max_retries : Nat) (last : Option PyErr) : PyErr :=
  .builtin .exc
    ("Operation failed after " ++ toString max_retries ++ " retries: " ++
      (match last with
       | some e => pyStr e
       | none => "None"))

/-- Loop body of `EnhancedExecutor._execute_with_retry`
(`application/enhanced_executor.py`): `for retry in range(max_retries)`, no
retryability check, break when `retry >= max_retries - 1`, then raise the
wrapper error.  `fuel` is the remaining iteration budget. -/
def enhancedRetryGo {α : Type} (f : AttemptFun α) (max_retries : Nat) :
    Nat → Nat → Except PyErr α × Nat
  | _, 0 => (.error (enhancedWrapErr max_retries none), 0)
  | retry, fuel + 1 =>
    match f retry with
    | .ok a => (.ok a, 1)
    | .error e =>
      if max_retries - 1 ≤ retry then (.error (enhancedWrapErr max_retries (some e)), 1)
      else
        let r := enhancedRetryGo f max_retries (retry + 1) fuel
        (r.1, r.2 + 1)

/-- `EnhancedExecutor._execute_with_retry`, instrumented with the attempt
count. -/
def enhanced_execute_with_retry {α : Type} (f : AttemptFun α) (max_retries : Nat) :
    Except PyErr α × Nat :=
  enhancedRetryGo f max_retries 0 max_retries

/-- Lowercased character list, modelling `content.lower()` for the ASCII
inputs in scope. -/
def lowerList (l : List Char) : List Char := l.map Char.toLower

/-- `str.upper()` for the ASCII inputs in scope. -/
def pyUpper (s : String) : String := String.mk (s.toList.map Char.toUpper)

/-- Drop a literal prefix, reporting the rest; `none` when the prefix is not
there. -/
def afterPrefix (p l : List Char) : Option (List Char) :=
  if p.isPrefixOf l then some (l.drop p.length) else none

/-- Python substring containment (`needle in hay`). -/
def containsSub (n : List Char) : List Char → Bool
  | [] => n.isPrefixOf []
  | c :: t => n.isPrefixOf (c :: t) || containsSub n t

/-- `re.search`: try the position matcher at each start position, left to
right, and return the first hit.  (The end-of-string position is never a
match for any pattern in scope, all of which need at least one character.) -/
def searchWith {α : Type} (matchAt : List Char → Option α) : List Char → Option α
  | [] => none
  | c :: t =>
    match matchAt (c :: t) with
    | some v => some v
    | none => searchWith matchAt t

/-- Numeric value of a run of decimal digits (`float(match.group(1))`, which
on a `\d+` group is an exact integer). -/
def digitsToNat (ds : List Char) : Nat :=
  ds.foldl (fun a c => 10 * a + (c.toNat - '0'.toNat)) 0

/-- Position matcher for `recommendation:\s*(buy|sell|hold)` on lowercased
text.  Greedy `\s*` with backtracking reduces to a maximal whitespace skip,
since no whitespace character can begin `buy`, `sell` or `hold`; the
alternation is tried in pattern order. -/
def recAt (l : List Char) : Option String :=
  match afterPrefix ("recommendation:".toList) l with
  | none => none
  | some r =>
    let r2 := r.dropWhile isPySpace
    if ("buy".toList).isPrefixOf r2 then some "buy"
    else if ("sell".toList).isPrefixOf r2 then some "sell"
    else if ("hold".toList).isPrefixOf r2 then some "hold"
    else none

/-- `[:\s]*` — the separator the source allows between the word
`confidence` and the number: any run, possibly empty, of colons and
whitespace. -/
def confSepDrop (l : List Char) : List Char :=
  l.dropWhile (fun c => c = ':' || isPySpace c)

/-- Position matcher for `confidence[:\s]*(\d+)%`.  Greedy `[:\s]*` and
`(\d+)` with backtracking reduce to maximal runs: no separator character is a
digit, and backing off the digit run only exposes another digit where `%` is
required. -/
def p1At (l : List Char) : Option Nat :=
  match afterPrefix ("confidence".toList) l with
  | none => none
  | some r =>
    let r2 := confSepDrop r
    let ds := r2.takeWhile isPyDigit
    if ds.isEmpty then none
    else
      match r2.drop ds.length with
      | '%' :: _ => some (digitsToNat ds)
      | _ => none

/-- Position matcher for `confidence[:\s]*(\d+)`. -/
def p2At (l : List Char) : Option Nat :=
  match afterPrefix ("confidence".toList) l with
  | none => none
  | some r =>
    let r2 := confSepDrop r
    let ds := r2.takeWhile isPyDigit
    if ds.isEmpty then none else some (digitsToNat ds)

/-- Position matcher for `(\d+)%\s*confidence`. -/
def p3At (l : List Char) : Option Nat :=
  let ds := l.takeWhile isPyDigit
  if ds.isEmpty then none
  else
    match l.drop ds.length with
    | '%' :: r =>
      if ("confidence".toList).isPrefixOf (r.dropWhile isPySpace) then
        some (digitsToNat ds)
      else none
    | _ => none

/-- Position matcher for `(\d+)\s*percent\s*confidence`. -/
def p4At (l : List Char) : Option Nat :=
  let ds := l.takeWhile isPyDigit
  if ds.isEmpty then none
  else
    match afterPrefix ("percent".toList) ((l.drop ds.length).dropWhile isPySpace) with
    | none => none
    | some r =>
      if ("confidence".toList).isPrefixOf (r.dropWhile isPySpace) then
        some (digitsToNat ds)
      else none

/-- The source's `for pattern in confidence_patterns: ... break` loop: the
four searches are run in order and the first pattern that matches anywhere
supplies the number. -/
def confLoop (cl : List Char) : Option Nat :=
  match searchWith p1At cl with
  | some n => some n
  | none =>
    match searchWith p2At cl with
    | some n => some n
    | none =>
      match searchWith p3At cl with
      | some n => some n
      | none => searchWith p4At cl

/-- Case-insensitive literal-prefix test (the needle is lowercase). -/
def ciPrefix (p l : List Char) : Bool :=
  p.isPrefixOf ((l.take p.length).map Char.toLower)

/-- Start of the `reasoning:` group: the text after the first
case-insensitive occurrence of `reasoning:` (leftmost match of
`re.search(r'reasoning:...', content, re.IGNORECASE | re.DOTALL)`). -/
def reasoningStart : List Char → Option (List Char)
  | [] => none
  | c :: t =>
    if ciPrefix ("reasoning:".toList) (c :: t) then some ((c :: t).drop 10)
    else reasoningStart t

/-- The lazy group `(.*?)(?=recommendation:|confidence:|$)`: characters up to
the first case-insensitive occurrence of `recommendation:` or `confidence:`,
or the end of the text.  (Python's `$` can also match just before a final
newline; since the caller strips the group, taking the full tail is
equivalent.) -/
def reasoningBody : List Char → List Char
  | [] => []
  | c :: t =>
    if ciPrefix ("recommendation:".toList) (c :: t) ||
       ciPrefix ("confidence:".toList) (c :: t) then []
    else c :: reasoningBody t

/-- Python `str.strip()`. -/
def pyStrip (l : List Char) : List Char :=
  ((l.dropWhile isPySpace).reverse.dropWhile isPySpace).reverse

/-- `EnhancedExecutor.get_trace_url`. -/
def get_trace_url (traceId : String) : String :=
  if traceId ≠ "" then
    "https://platform.openai.com/traces/trace?trace_id=" ++ traceId
  else "No trace ID available"

/-- The dictionary returned by the analysis entry points.  Keys that are
present only in some of the returned dictionaries are `Option` fields. -/
structure AnalysisDict where
  recommendation : String
  confidence : Rat
  reasoning : String
  full_analysis : Option String
  analysis_type : Option String
  trace_url : Option String
  error : Option String
  parse_error : Option String
deriving DecidableEq, Repr

/-- The literal substring `don't buy` (apostrophe written by code point). -/
def dontBuy : List Char := "don".toList ++ [Char.ofNat 39] ++ "t buy".toList

/-- The literal substring `don't sell` (apostrophe written by code point). -/
def dontSell : List Char := "don".toList ++ [Char.ofNat 39] ++ "t sell".toList

/-- `EnhancedExecutor._parse_trading_recommendation`.  The body's own
`try/except` is dead code for the modelled operations (pure regex and string
work), so the `parse_error` key is always absent. -/
def parse_trading_recommendation (content : String) (traceId : String) : AnalysisDict :=
  let cl := lowerList content.toList
  let recommendation :=
    if containsSub ("recommendation:".toList) cl then
      match searchWith recAt cl with
      | some v => pyUpper v
      | none => "HOLD"
    else if containsSub ("strong buy".toList) cl ||
            (containsSub ("buy".toList) cl && ¬ containsSub dontBuy cl) then "BUY"
    else if containsSub ("strong sell".toList) cl ||
            (containsSub ("sell".toList) cl && ¬ containsSub dontSell cl) then "SELL"
    else "HOLD"
  let confidence : Rat :=
    match confLoop cl with
    | some n => (n : Rat) / 100
    | none => 1 / 2
  let reasoning :=
    match reasoningStart content.toList with
    | some rest => String.mk (pyStrip (reasoningBody rest))
    | none => content
  { recommendation := recommendation
    confidence := confidence
    reasoning := reasoning
    full_analysis := some content
    analysis_type := some "enhanced_ai_mcp"
    trace_url := some (get_trace_url traceId)
    error := none
    parse_error := none }

/-- `MCPServerConfig` from `common/mcp_base.py` (`timeout` and `cache_ttl`
are Python ints and may be negative). -/
structure MCPServerConfig where
  name : String := "Polymarket MCP Server"
  url : String := "https://api.example-mcp-service.com"
  api_key : Option String := none
  timeout : Int := 60
  enable_cache : Bool := true
  cache_ttl : Int := 3600
deriving DecidableEq, Repr

/-- `MCPServerManager.validate_config`: the error it raises, or `none` when
the configuration passes.  Every raise site constructs
`MCPError(..., retryable=False)`.  Python's `url.startswith(("http://",
"https://"))` is modelled as a character-list prefix test. -/
def validate_config (c : MCPServerConfig) : Option PyErr :=
  if c.url = "" then
    some (.polymarket .mcp "MCP server URL is required" false)
  else if ¬ (("http://".toList).isPrefixOf c.url.toList ||
             ("https://".toList).isPrefixOf c.url.toList) then
    some (.polymarket .mcp "MCP server URL must start with http:// or https://" false)
  else if c.timeout ≤ 0 then
    some (.polymarket .mcp "MCP server timeout must be greater than 0" false)
  else if c.cache_ttl < 0 then
    some (.polymarket .mcp "MCP server cache TTL must be non-negative" false)
  else none

/-- `AgentConfig` from `application/enhanced_executor.py`. -/
structure AgentConfig where
  model : String := "gpt-4.1"
  temperature : Rat := 1 / 10
  max_tokens : Nat := 50000
  timeout : Nat := 120
  max_retries : Nat := 3
deriving Repr

/-- The object returned by a successful `Runner.run` call, reduced to the
field the pipeline reads.  (A run result object is always truthy.) -/
structure RunResult where
  final_output : String
deriving DecidableEq, Repr

/-- Stub of the external collaborators of one `enhanced_market_analysis`
call: whether `self.mcp_server` is non-None, the outcome of entering the
server's async context, and the per-attempt outcomes of `Runner.run` in the
tool-augmented and tool-less phases. -/
structure ModelStub where
  mcpPresent : Bool
  mcpConnect : Except PyErr Unit
  mcpRun : AttemptFun RunResult
  basicRun : AttemptFun RunResult

/-- The tool-augmented phase of `enhanced_market_analysis` (the
`if self.mcp_server: try: ... except: mcp_success = False` block): yields
`(mcp_success, result)`.  Connection failure and retry exhaustion are both
swallowed here. -/
def mcpStep (cfg : AgentConfig) (stub : ModelStub) : Bool × Option RunResult :=
  if stub.mcpPresent then
    match stub.mcpConnect with
    | .error _ => (false, none)
    | .ok _ =>
      match (enhanced_execute_with_retry stub.mcpRun cfg.max_retries).1 with
      | .ok r => (true, some r)
      | .error _ => (false, none)
  else (false, none)

/-- The body of `enhanced_market_analysis` inside its outer `try`: either the
dictionary it would return or the exception that escapes to the outer
handler.  The `.ok none` branch mirrors the dead
`raise Exception("No result from agent execution")`. -/
def enhancedMarketAnalysisBody (cfg : AgentConfig) (stub : ModelStub)
    (traceId : String) : Except PyErr AnalysisDict :=
  let step := mcpStep cfg stub
  let resultE : Except PyErr (Option RunResult) :=
    if step.1 then .ok step.2
    else
      match (enhanced_execute_with_retry stub.basicRun cfg.max_retries).1 with
      | .ok r => .ok (some r)
      | .error e => .error e
  match resultE with
  | .error e => .error e
  | .ok none => .error (.builtin .exc "No result from agent execution")
  | .ok (some r) =>
    let d := parse_trading_recommendation r.final_output traceId
    .ok { d with
          analysis_type := some (if step.1 then "enhanced_ai_mcp" else "basic_ai_no_mcp") }

/-- The dictionary built by the outer `except` clause of
`enhanced_market_analysis`. -/
def errorReturnDict (e : PyErr) (traceId : String) : AnalysisDict :=
  { recommendation := "HOLD"
    confidence := 0
    reasoning := "Analysis failed due to technical error"
    full_analysis := none
    analysis_type := none
    trace_url := if traceId ≠ "" then some (get_trace_url traceId) else none
    error := some (pyStr e)
    parse_error := none }

/-- `EnhancedExecutor.enhanced_market_analysis`: total by construction — the
outer `except Exception` turns every escaped error into the fallback
dictionary.  `traceId` is the value `gen_trace_id()` produced for this call
(generated before any failible step). -/
def enhanced_market_analysis (cfg : AgentConfig) (stub : ModelStub)
    (traceId : String) : AnalysisDict :=
  match enhancedMarketAnalysisBody cfg stub traceId with
  | .ok d => d
  | .error e => errorReturnDict e traceId

/-- The confidence gate of `Trader.one_best_trade`
(`application/trade.py`, step 4): `(should_trade, trade_side)`, with both
thresholds hard-coded to `0.7` in the source. -/
def one_best_trade_gate (recommendation : String) (confidence : Rat) :
    Bool × Option String :=
  if recommendation = "BUY" ∧ 7 / 10 ≤ confidence then (true, some "Yes")
  else if recommendation = "SELL" ∧ 7 / 10 ≤ confidence then (true, some "No")
  else (false, none)

/-- Modelled from the spec claim's words: the pattern `confidence:\s*NN%` —
a mandatory colon directly after the label, then whitespace, digits and a
percent sign. -/
def p1ClaimAt (l : List Char) : Option Nat :=
  match afterPrefix ("confidence:".toList) l with
  | none => none
  | some r =>
    let r2 := r.dropWhile isPySpace
    let ds := r2.takeWhile isPyDigit
    if ds.isEmpty then none
    else
      match r2.drop ds.length with
      | '%' :: _ => some (digitsToNat ds)
      | _ => none

/-- Modelled from the spec claim's words: the pattern `confidence:\s*NN`. -/
def p2ClaimAt (l : List Char) : Option Nat :=
  match afterPrefix ("confidence:".toList) l with
  | none => none
  | some r =>
    let r2 := r.dropWhile isPySpace
    let ds := r2.takeWhile isPyDigit
    if ds.isEmpty then none else some (digitsToNat ds)

/-- Modelled from the spec claim's words (claim C7 as stated): scan, in
order, for `confidence:\s*NN%`, `confidence:\s*NN`, `NN%\s*confidence`,
`NN\s*percent\s*confidence`; take the first match, divide by 100 and clamp
to `[0, 1]`; default `0.5`. -/
def specConfidence (text : String) : Rat :=
  let cl := lowerList text.toList
  match [p1ClaimAt, p2ClaimAt, p3At, p4At].findSome? (fun p => searchWith p cl) with
  | some n => min 1 (max 0 ((n : Rat) / 100))
  | none => 1 / 2

/-- The amended confidence rule, stated independently of the parser's loop:
first match, in order, of the source's patterns `confidence[:\s]*NN%`,
`confidence[:\s]*NN`, `NN%\s*confidence`, `NN\s*percent\s*confidence`,
divided by 100 with no clamping; default `0.5`. -/
def specConfidenceAmended (text : String) : Rat :=
  let cl := lowerList text.toList
  match [p1At, p2At, p3At, p4At].findSome? (fun p => searchWith p cl) with
  | some n => (n : Rat) / 100
  | none => 1 / 2

/-- Helper for C3: when every attempt fails with a retryable error, the
`execute_with_retry` loop runs through its whole budget and ends with the
last attempt's error. -/
theorem executeWithRetryGo_allFail {α : Type} (cfg : RetryConfig) (f : AttemptFun α)
    (e : Nat → PyErr) (hf : ∀ k, f k = .error (e k))
    (hr : ∀ k, cfg.is_retryable (e k) = true) :
    ∀ fuel attempt, attempt + fuel = cfg.max_retries + 1 → 0 < fuel →
      executeWithRetryGo cfg f attempt fuel = (.error (e cfg.max_retries), fuel) := by
  intro fuel
  induction fuel with
  | zero => intro attempt h hpos; exact absurd hpos (by omega)
  | succ fuel ih =>
    intro attempt h hpos
    by_cases hle : cfg.max_retries ≤ attempt
    · have ha : attempt = cfg.max_retries := by omega
      have hfz : fuel = 0 := by omega
      subst ha hfz
      simp [executeWithRetryGo, hf _, hle]
    · have hfuel : 0 < fuel := by omega
      simp only [executeWithRetryGo, hf attempt]
      rw [if_neg hle, if_neg (by simp [hr attempt])]
      rw [ih (attempt + 1) (by omega) hfuel]

/-- C3 (counterexample): with `max_retries = 1` (two attempts) and an
operation that always fails with `ConnectionError("boom")`,
`execute_with_retry` makes the 2 attempts but then re-raises the underlying
error itself: the raised error is exactly the last attempt's error, and its
message does not state the attempt count (it contains no digit `2`), so no
wrapping terminal error is raised as the claim states. -/
theorem C3_counterexample :
    execute_with_retry (α := Nat) { max_retries := 1 }
        (fun _ => .error (.builtin .connErr "boom")) =
      (.error (.builtin .connErr "boom"), 2) ∧
    containsSub ("2".toList) (pyStr (.builtin .connErr "boom")).toList = false := by
  exact ⟨rfl, rfl⟩

/-- C3 (amended): for every retry configuration and every operation failing
on each attempt with a retryable error, `execute_with_retry` attempts the
operation exactly `max_retries + 1` times and then re-raises the last
underlying error unchanged; the attempt count appears only in the log, not
in the raised error. -/
theorem C3_retry_exhaustion {α : Type} (cfg : RetryConfig) (f : AttemptFun α)
    (e : Nat → PyErr) (hf : ∀ k, f k = .error (e k))
    (hr : ∀ k, cfg.is_retryable (e k) = true) :
    execute_with_retry cfg f = (.error (e cfg.max_retries), cfg.max_retries + 1) := by
  unfold execute_with_retry
  exact executeWithRetryGo_allFail cfg f e hf hr (cfg.max_retries + 1) 0 (by omega) (by omega)

/-- C3 (witness): the amended theorem at `max_retries = 2` and an operation
that always fails with `TimeoutError("x")`: three attempts, final error is
the underlying timeout itself. -/
theorem C3_retry_exhaustion_witness :
    execute_with_retry (α := Nat) { max_retries := 2 }
        (fun _ => .error (.builtin .timeoutErr "x")) =
      (.error (.builtin .timeoutErr "x"), 3) :=
  C3_retry_exhaustion { max_retries := 2 } (fun _ => .error (.builtin .timeoutErr "x"))
    (fun _ => .builtin .timeoutErr "x") (fun _ => rfl) (fun _ => rfl)

/-- C5: a first attempt failing with an error the predicate classifies
non-retryable makes both retry executors stop after exactly 1 attempt and
surface that very error, whatever `max_retries` is. -/
theorem C5_non_retryable_single_attempt {α : Type} (cfg : RetryConfig)
    (f : AttemptFun α) (e : PyErr) (hf : f 0 = .error e)
    (hr : cfg.is_retryable e = false) :
    execute_with_retry cfg f = (.error e, 1) ∧
    execute_with_retry_sync cfg f = (.error e, 1) := by
  constructor
  · unfold execute_with_retry
    simp only [executeWithRetryGo, hf]
    split_ifs with h1 h2 <;> simp_all
  · unfold execute_with_retry_sync
    simp only [executeWithRetrySyncGo, hf]
    split_ifs with h1 h2 <;> simp_all

/-- C5 (witness): a `ConfigurationError` (constructed with
`retryable=False`) aborts both executors after one attempt under the default
configuration (`max_retries = 3`). -/
theorem C5_non_retryable_single_attempt_witness :
    execute_with_retry (α := Nat) {}
        (fun _ => .error (.polymarket .configuration "bad" false)) =
      (.error (.polymarket .configuration "bad" false), 1) ∧
    execute_with_retry_sync (α := Nat) {}
        (fun _ => .error (.polymarket .configuration "bad" false)) =
      (.error (.polymarket .configuration "bad" false), 1) :=
  C5_non_retryable_single_attempt {} (fun _ => .error (.polymarket .configuration "bad" false))
    (.polymarket .configuration "bad" false) rfl rfl

/-- Helper for C10: the two retry loops compute identically from any loop
state. -/
theorem executeWithRetryGo_eq_sync {α : Type} (cfg : RetryConfig) (f : AttemptFun α) :
    ∀ fuel attempt,
      executeWithRetryGo cfg f attempt fuel = executeWithRetrySyncGo cfg f attempt fuel := by
  intro fuel
  induction fuel with
  | zero => intro attempt; rfl
  | succ fuel ih =>
    intro attempt
    simp only [executeWithRetryGo, executeWithRetrySyncGo]
    cases f attempt with
    | ok a => rfl
    | error e =>
      split_ifs <;> simp [ih]

/-- C10: on synchronous operations (where the async executor's
coroutine/timeout branch is not taken), `execute_with_retry` and
`execute_with_retry_sync` make the same attempts in the same order and
produce the same result or final error — the two differ only in how they
suspend between attempts. -/
theorem C10_async_sync_equivalent {α : Type} (cfg : RetryConfig) (f : AttemptFun α) :
    execute_with_retry cfg f = execute_with_retry_sync cfg f := by
  unfold execute_with_retry execute_with_retry_sync
  exact executeWithRetryGo_eq_sync cfg f (cfg.max_retries + 1) 0

/-- C8 (counterexample): with `base_delay = 1`, `backoff_multiplier = 21/20 > 1`,
`max_delay = 60` and the admissible jitter realizations `1/10` on attempt 0
and `0` on attempt 1, the computed delay strictly decreases from attempt 0 to
attempt 1 — the source adds jitter before clamping
(`min(delay + jitter, max_delay)`), so the claimed monotonicity in the
attempt index fails for every multiplier below `1 + jitterFraction`. -/
theorem C8_counterexample :
    (1 : Rat) < (21 / 20 : Rat) ∧
    (0 : Rat) ≤ 1 / 10 ∧ (1 / 10 : Rat) ≤ 1 / 10 ∧
    (0 : Rat) ≤ 0 ∧ (0 : Rat) ≤ 1 / 10 ∧
    RetryConfig.get_delay
        { base_delay := 1, backoff_multiplier := 21 / 20, max_delay := 60 } 1 0 <
      RetryConfig.get_delay
        { base_delay := 1, backoff_multiplier := 21 / 20, max_delay := 60 } 0 (1 / 10) := by
  refine ⟨by norm_num, by norm_num, le_refl _, le_refl _, by norm_num, ?_⟩
  norm_num [RetryConfig.get_delay, min_def]

/-- C8 (amended): the delay actually computed is
`min(base × multiplier^k × (1 + jitter), max_delay)` with jitter realization
in `[0, 1/10]` — jitter is added before the clamp, so the delay never
exceeds `max_delay` itself (a fortiori `max_delay × (1 + jitterFraction)`);
and it is monotonically non-decreasing in the attempt index, for every pair
of jitter realizations, whenever the multiplier is at least
`1 + jitterFraction = 11/10` (the default multiplier 2 qualifies; the claim's
bare `multiplier > 1` does not suffice, see the counterexample). -/
theorem C8_delay_bound_and_mono (cfg : RetryConfig) (k : Nat) (u v : Rat)
    (hb : 0 ≤ cfg.base_delay) (hm : 11 / 10 ≤ cfg.backoff_multiplier)
    (hu0 : 0 ≤ u) (hu1 : u ≤ 1 / 10) (hv0 : 0 ≤ v) (hv1 : v ≤ 1 / 10) :
    cfg.get_delay k u ≤ cfg.max_delay ∧
    cfg.get_delay k u ≤ cfg.get_delay (k + 1) v := by
  constructor
  · exact min_le_right _ _
  · have hm0 : (0 : Rat) ≤ cfg.backoff_multiplier := by linarith
    have hp : (0 : Rat) ≤ cfg.base_delay * cfg.backoff_multiplier ^ k :=
      mul_nonneg hb (pow_nonneg hm0 k)
    refine min_le_min ?_ (le_refl _)
    have key : cfg.base_delay * cfg.backoff_multiplier ^ k * (1 + u) ≤
        cfg.base_delay * cfg.backoff_multiplier ^ (k + 1) * (1 + v) := by
      rw [pow_succ]
      have h1 : cfg.base_delay * cfg.backoff_multiplier ^ k * (1 + u) ≤
          cfg.base_delay * cfg.backoff_multiplier ^ k * (11 / 10) :=
        mul_le_mul_of_nonneg_left (by linarith) hp
      have h2 : cfg.base_delay * cfg.backoff_multiplier ^ k * (11 / 10) ≤
          cfg.base_delay * cfg.backoff_multiplier ^ k * cfg.backoff_multiplier :=
        mul_le_mul_of_nonneg_left hm hp
      have h3 : cfg.base_delay * cfg.backoff_multiplier ^ k * cfg.backoff_multiplier ≤
          cfg.base_delay * (cfg.backoff_multiplier ^ k * cfg.backoff_multiplier) * (1 + v) := by
        have hp2 : (0 : Rat) ≤ cfg.base_delay * (cfg.backoff_multiplier ^ k * cfg.backoff_multiplier) := by
          rw [← mul_assoc]; exact mul_nonneg hp hm0
        nlinarith
      calc cfg.base_delay * cfg.backoff_multiplier ^ k * (1 + u) ≤
            cfg.base_delay * cfg.backoff_multiplier ^ k * (11 / 10) := h1
        _ ≤ cfg.base_delay * cfg.backoff_multiplier ^ k * cfg.backoff_multiplier := h2
        _ ≤ cfg.base_delay * (cfg.backoff_multiplier ^ k * cfg.backoff_multiplier) * (1 + v) := h3
    calc cfg.base_delay * cfg.backoff_multiplier ^ k +
          u * (cfg.base_delay * cfg.backoff_multiplier ^ k) =
        cfg.base_delay * cfg.backoff_multiplier ^ k * (1 + u) := by ring
      _ ≤ cfg.base_delay * cfg.backoff_multiplier ^ (k + 1) * (1 + v) := key
      _ = cfg.base_delay * cfg.backoff_multiplier ^ (k + 1) +
          v * (cfg.base_delay * cfg.backoff_multiplier ^ (k + 1)) := by ring

/-- C8 (witness): the amended theorem at the default configuration
(`base_delay = 1`, `multiplier = 2`, `max_delay = 60`), attempt 0 with
jitter realization `1/10` against attempt 1 with jitter `0`. -/
theorem C8_delay_bound_and_mono_witness :
    RetryConfig.get_delay {} 0 (1 / 10) ≤ ({} : RetryConfig).max_delay ∧
    RetryConfig.get_delay {} 0 (1 / 10) ≤ RetryConfig.get_delay {} 1 0 :=
  C8_delay_bound_and_mono {} 0 (1 / 10) 0 (by norm_num) (by norm_num)
    (by norm_num) (by norm_num) (by norm_num) (by norm_num)

/-- C6 (counterexample): a configuration with a missing URL fails
validation, but the error raised is an `MCPError` (with `retryable=False`),
not a `ConfigurationError` as the claim states. -/
theorem C6_counterexample :
    validate_config { url := "" } =
      some (.polymarket .mcp "MCP server URL is required" false) ∧
    PMClass.mcp ≠ PMClass.configuration :=
  ⟨rfl, by decide⟩

/-- C6 (amended): validation fails exactly when the URL is empty or lacks an
`http://`/`https://` scheme, or the timeout is ≤ 0, or the cache TTL is
negative; every failure raises a non-retryable `MCPError` (not a
`ConfigurationError`), and a configuration meeting all the conditions passes
without raising. -/
theorem C6_validate_config (c : MCPServerConfig) :
    ((validate_config c).isSome ↔
      (c.url = "" ∨
        (("http://".toList).isPrefixOf c.url.toList = false ∧
          ("https://".toList).isPrefixOf c.url.toList = false) ∨
        c.timeout ≤ 0 ∨ c.cache_ttl < 0)) ∧
    (∀ e, validate_config c = some e → ∃ m, e = .polymarket .mcp m false) := by
  unfold validate_config
  split_ifs with h1 h2 h3 h4 <;> refine ⟨?_, ?_⟩
  case _ => simp [h1]
  case _ => intro e he; injection he with he; subst he; exact ⟨_, rfl⟩
  case _ => simp [h3]
  case _ => intro e he; injection he with he; subst he; exact ⟨_, rfl⟩
  case _ => simp [h4]
  case _ => intro e he; injection he with he; subst he; exact ⟨_, rfl⟩
  case _ =>
    constructor
    · intro h
      simp at h
    · intro h
      rcases h with h | h | h | h
      · exact absurd h h1
      · rw [h.1, h.2] at h2
        simp at h2
      · exact absurd h h3
      · exact absurd h h4
  case _ => intro e he; exact he.elim
  case _ =>
    constructor
    · intro _
      have hx : ("http://".toList).isPrefixOf c.url.toList = false := by
        cases hv : ("http://".toList).isPrefixOf c.url.toList
        · rfl
        · exact absurd (by rw [hv]; rfl) h2
      have hy : ("https://".toList).isPrefixOf c.url.toList = false := by
        cases hv : ("https://".toList).isPrefixOf c.url.toList
        · rfl
        · exact absurd (by rw [hv, Bool.or_true]) h2
      exact Or.inr (Or.inl ⟨hx, hy⟩)
    · intro _
      rfl
  case _ => intro e he; injection he with he; subst he; exact ⟨_, rfl⟩

/-- C6 (witness): the amended theorem at a config whose URL has a bad
scheme: validation fails, and the raised error is a non-retryable MCPError. -/
theorem C6_validate_config_witness :
    (validate_config { url := "ftp://x" }).isSome ∧
    (∃ m, (PyErr.polymarket .mcp "MCP server URL must start with http:// or https://" false) =
      .polymarket .mcp m false) :=
  ⟨(C6_validate_config { url := "ftp://x" }).1.mpr (Or.inr (Or.inl ⟨by decide, by decide⟩)),
   (C6_validate_config { url := "ftp://x" }).2 _ (by decide)⟩

/-- C7 (counterexample): on the text `"confidence: 150"` the parser computes
confidence `150 / 100 = 3/2`, while the claim's rule (first matching claimed
pattern, divided by 100 and clamped to `[0, 1]`) yields `1`: the source never
clamps the extracted value. -/
theorem C7_counterexample :
    (parse_trading_recommendation "confidence: 150" "t").confidence = 3 / 2 ∧
    specConfidence "confidence: 150" = 1 ∧
    ((3 : Rat) / 2 ≠ 1) := by
  refine ⟨?_, ?_, by norm_num⟩
  · rw [show (parse_trading_recommendation "confidence: 150" "t").confidence =
        ((150 : Nat) : Rat) / 100 from rfl]
    norm_num
  · rw [show specConfidence "confidence: 150" =
        min 1 (max 0 (((150 : Nat) : Rat) / 100)) from rfl]
    norm_num

/-- Helper for C7: the source's first-match-wins loop over the four
confidence patterns agrees with a first-some scan of the pattern list. -/
theorem confLoop_eq_findSome (cl : List Char) :
    confLoop cl = [p1At, p2At, p3At, p4At].findSome? (fun p => searchWith p cl) := by
  unfold confLoop
  cases h1 : searchWith p1At cl <;> cases h2 : searchWith p2At cl <;>
    cases h3 : searchWith p3At cl <;> cases h4 : searchWith p4At cl <;>
    simp [List.findSome?, h1, h2, h3, h4]

/-- C7 (amended): for every input text the parsed confidence is the first
match, in order, of the source's patterns `confidence[:\s]*NN%`,
`confidence[:\s]*NN`, `NN%\s*confidence`, `NN\s*percent\s*confidence` over
the lowercased text, divided by 100 with no clamping; when no pattern
matches it stays at the default `0.5`. -/
theorem C7_confidence_rule (text traceId : String) :
    (parse_trading_recommendation text traceId).confidence = specConfidenceAmended text := by
  have h := confLoop_eq_findSome (lowerList text.toList)
  unfold parse_trading_recommendation specConfidenceAmended
  dsimp only
  rw [← h]

/-- Helper for C9: if the labelled-recommendation pattern matches anywhere in
the text, the literal `recommendation:` occurs in the text (so the parser
takes its label branch, never the keyword heuristics). -/
theorem searchWith_recAt_contains : ∀ (cl : List Char) (v : String),
    searchWith recAt cl = some v → containsSub ("recommendation:".toList) cl = true := by
  intro cl
  induction cl with
  | nil => intro v h; exact absurd h (by simp [searchWith])
  | cons c t ih =>
    intro v h
    unfold searchWith at h
    unfold containsSub
    cases hr : recAt (c :: t) with
    | some w =>
      have hp : ("recommendation:".toList).isPrefixOf (c :: t) = true := by
        by_contra hnp
        have hnone : recAt (c :: t) = none := by
          unfold recAt afterPrefix
          rw [if_neg hnp]
        rw [hnone] at hr
        exact absurd hr (by simp)
      rw [hp]
      rfl
    | none =>
      rw [hr] at h
      rw [ih v h, Bool.or_true]

/-- C9: whenever the lowercased text matches
`recommendation:\s*(buy|sell|hold)` with first-match value `v`, the parsed
recommendation is the uppercased `v` — the label always wins over the
keyword heuristics, which are only consulted when the label is absent. -/
theorem C9_label_precedence (content traceId : String) (v : String)
    (h : searchWith recAt (lowerList content.toList) = some v) :
    (parse_trading_recommendation content traceId).recommendation = pyUpper v := by
  have hc := searchWith_recAt_contains _ v h
  unfold parse_trading_recommendation
  dsimp only
  rw [if_pos hc, h]

/-- C9 (witness): a text carrying both the label `Recommendation: SELL` and
the bare word `buy` parses to SELL — the label takes precedence. -/
theorem C9_label_precedence_witness :
    searchWith recAt
        (lowerList ("Recommendation: SELL. Traders who buy now are early.".toList)) =
      some "sell" ∧
    containsSub ("buy".toList)
        (lowerList ("Recommendation: SELL. Traders who buy now are early.".toList)) = true ∧
    (parse_trading_recommendation "Recommendation: SELL. Traders who buy now are early."
        "t").recommendation = "SELL" := by
  refine ⟨by decide, by decide, ?_⟩
  have h := C9_label_precedence "Recommendation: SELL. Traders who buy now are early." "t"
    "sell" (by decide)
  have hu : pyUpper "sell" = "SELL" := by decide
  rwa [hu] at h

/-- C4: the trade gate fires with side `"Yes"` exactly when the
recommendation is BUY with confidence at least the (hard-coded) 0.7 buy
threshold, with side `"No"` exactly when it is SELL with confidence at least
the 0.7 sell threshold, and stays closed with no side in every other case. -/
theorem C4_trade_gate (rec : String) (conf : Rat) :
    (one_best_trade_gate rec conf = (true, some "Yes") ↔ rec = "BUY" ∧ 7 / 10 ≤ conf) ∧
    (one_best_trade_gate rec conf = (true, some "No") ↔ rec = "SELL" ∧ 7 / 10 ≤ conf) ∧
    (¬(rec = "BUY" ∧ 7 / 10 ≤ conf) → ¬(rec = "SELL" ∧ 7 / 10 ≤ conf) →
      one_best_trade_gate rec conf = (false, none)) := by
  unfold one_best_trade_gate
  split_ifs with h1 h2
  · refine ⟨⟨fun _ => h1, fun _ => rfl⟩, ⟨?_, ?_⟩, fun hn _ => absurd h1 hn⟩
    · intro hEq
      exact absurd hEq (by decide)
    · intro hS
      exact absurd (h1.1.symm.trans hS.1) (by decide)
  · refine ⟨⟨?_, fun hB => absurd hB h1⟩, ⟨fun _ => h2, fun _ => rfl⟩, fun _ hn => absurd h2 hn⟩
    intro hEq
    exact absurd hEq (by decide)
  · refine ⟨⟨?_, fun hB => absurd hB h1⟩, ⟨?_, fun hS => absurd hS h2⟩, fun _ _ => rfl⟩
    · intro hEq
      exact absurd hEq (by decide)
    · intro hEq
      exact absurd hEq (by decide)

/-- C4 (witness): the gate at the spec's sample points: BUY at 0.75 trades
YES, BUY at 0.5 does not trade, HOLD at 0.99 does not trade. -/
theorem C4_trade_gate_witness :
    one_best_trade_gate "BUY" (75 / 100) = (true, some "Yes") ∧
    one_best_trade_gate "BUY" (50 / 100) = (false, none) ∧
    one_best_trade_gate "HOLD" (99 / 100) = (false, none) :=
  ⟨(C4_trade_gate "BUY" (75 / 100)).1.mpr ⟨rfl, by norm_num⟩,
   (C4_trade_gate "BUY" (50 / 100)).2.2 (fun h => absurd h.2 (by norm_num))
     (fun h => absurd h.1 (by decide)),
   (C4_trade_gate "HOLD" (99 / 100)).2.2 (fun h => absurd h.1 (by decide))
     (fun h => absurd h.1 (by decide))⟩

/-- C1: whenever the tool-augmented phase did not succeed and the tool-less
retry also fails, `enhanced_market_analysis` still returns (its Lean type is
total — the outer `except Exception` absorbs the raise) and the returned
outcome is exactly the failure dictionary: `recommendation = "HOLD"`,
`confidence = 0`, the explanatory reasoning string, and the trace URL built
from the trace id generated for this call. -/
theorem C1_pipeline_failure_outcome (cfg : AgentConfig) (stub : ModelStub)
    (traceId : String) (e : PyErr) (ht : traceId ≠ "")
    (hm : (mcpStep cfg stub).1 = false)
    (hb : (enhanced_execute_with_retry stub.basicRun cfg.max_retries).1 = .error e) :
    enhanced_market_analysis cfg stub traceId =
      { recommendation := "HOLD"
        confidence := 0
        reasoning := "Analysis failed due to technical error"
        full_analysis := none
        analysis_type := none
        trace_url := some (get_trace_url traceId)
        error := some (pyStr e)
        parse_error := none } := by
  unfold enhanced_market_analysis enhancedMarketAnalysisBody errorReturnDict
  dsimp only
  rw [hm, hb]
  simp [ht]

/-- C1 (witness): a model stub that times out on every call (no tool server
present, every tool-less attempt a timeout) under the default configuration:
the outcome is HOLD at confidence 0 with the explanatory reasoning and a
non-empty trace reference. -/
theorem C1_pipeline_failure_outcome_witness :
    enhanced_market_analysis {}
        ⟨false, .ok (), fun _ => .error (.builtin .timeoutErr "t"),
          fun _ => .error (.builtin .timeoutErr "timed out")⟩ "trace_abc" =
      { recommendation := "HOLD"
        confidence := 0
        reasoning := "Analysis failed due to technical error"
        full_analysis := none
        analysis_type := none
        trace_url := some (get_trace_url "trace_abc")
        error := some (pyStr (.builtin .exc "Operation failed after 3 retries: timed out"))
        parse_error := none } :=
  C1_pipeline_failure_outcome {}
    ⟨false, .ok (), fun _ => .error (.builtin .timeoutErr "t"),
      fun _ => .error (.builtin .timeoutErr "timed out")⟩ "trace_abc"
    (.builtin .exc "Operation failed after 3 retries: timed out")
    (by decide) rfl rfl

/-- C2 (counterexample): when the tool-augmented phase fails and the
tool-less phase then also fails, the returned outcome is the error
dictionary, which carries no `analysis_type` key at all — so the claim's
unconditional "the returned outcome's mode marks the tool-less path" is
false for this analysis call. -/
theorem C2_counterexample :
    (mcpStep {} ⟨true, .ok (), fun _ => .error (.builtin .connErr "c"),
        fun _ => .error (.builtin .timeoutErr "t")⟩).1 = false ∧
    (enhanced_market_analysis {} ⟨true, .ok (), fun _ => .error (.builtin .connErr "c"),
        fun _ => .error (.builtin .timeoutErr "t")⟩ "trace_x").analysis_type = none ∧
    (none : Option String) ≠ some "basic_ai_no_mcp" :=
  ⟨by decide, by decide, by decide⟩

/-- C2 (amended): whenever the tool-augmented phase fails (absent tool
server, connection failure, or retry exhaustion — all reflected in
`mcpStep` reporting no success), the pipeline swallows the error and
re-invokes the model without tools; when that tool-less invocation succeeds,
the returned outcome is well-formed (no `error` key) and its
`analysis_type` marks the tool-less path.  (When the tool-less phase also
fails, the error outcome carries no `analysis_type` key — see the
counterexample — and C1 describes the result.) -/
theorem C2_fallback_mode (cfg : AgentConfig) (stub : ModelStub) (traceId : String)
    (r : RunResult) (hm : (mcpStep cfg stub).1 = false)
    (hb : (enhanced_execute_with_retry stub.basicRun cfg.max_retries).1 = .ok r) :
    (enhanced_market_analysis cfg stub traceId).analysis_type = some "basic_ai_no_mcp" ∧
    (enhanced_market_analysis cfg stub traceId).error = none := by
  unfold enhanced_market_analysis enhancedMarketAnalysisBody
  dsimp only
  rw [hm, hb]
  simp [parse_trading_recommendation]

/-- C2 (witness): tool-augmented retries exhausted on connection errors,
tool-less run succeeds: outcome is marked `basic_ai_no_mcp` and carries no
error. -/
theorem C2_fallback_mode_witness :
    (enhanced_market_analysis {} ⟨true, .ok (), fun _ => .error (.builtin .connErr "c"),
        fun _ => .ok ⟨"Recommendation: BUY"⟩⟩ "trace_w").analysis_type =
      some "basic_ai_no_mcp" ∧
    (enhanced_market_analysis {} ⟨true, .ok (), fun _ => .error (.builtin .connErr "c"),
        fun _ => .ok ⟨"Recommendation: BUY"⟩⟩ "trace_w").error = none :=
  C2_fallback_mode {} ⟨true, .ok (), fun _ => .error (.builtin .connErr "c"),
    fun _ => .ok ⟨"Recommendation: BUY"⟩⟩ "trace_w" ⟨"Recommendation: BUY"⟩ rfl rfl
